import Mathlib

/-!
Shallow embedding of the BHV role-resolution, verification (OTP) and
authorization-gate core: `app/config.py`, `app/models.py`, `app/utils.py`,
`app/auth/routes.py` and `app/auth/decorators.py`.

Python strings are modelled as `List Char`; `str.strip` / `str.lower` /
`str.split` are re-implemented below with the same semantics on the
character sequence.  MongoDB collections are modelled as Lean lists, a
document `_id` as a `Nat` supplied at insertion time, and `datetime`
values as `Int` time stamps measured in minutes (the only arithmetic the
code performs on them is subtraction of an `OTP_EXPIRY_MINUTES` delta and
an order comparison).  Role strings stay `String` literals since the code
only ever compares them for equality.
-/

/-- Python `str.strip()`: drop leading and trailing whitespace. -/
def pyStrip (s : List Char) : List Char :=
  ((s.dropWhile Char.isWhitespace).reverse.dropWhile Char.isWhitespace).reverse

/-- Python `str.lower()` (letter case only, as used on emails). -/
def pyLower (s : List Char) : List Char :=
  s.map Char.toLower

/-- The email normalisation `email.strip().lower()` used throughout the code. -/
def normEmail (s : List Char) : List Char :=
  pyLower (pyStrip s)

/-- The environment/`.env` configuration read by `app/config.py`: the
`ADMIN_EMAILS` (comma separated) and legacy `ADMIN_EMAIL` (singular)
variables, each possibly absent. -/
structure Env where
  ADMIN_EMAILS : Option (List Char)
  ADMIN_EMAIL : Option (List Char)
deriving Repr, DecidableEq

/-- `config.get_admin_emails`: parse the allow-list from the environment,
trimming entries, dropping empty ones and lowercasing. -/
def get_admin_emails (env : Env) : List (List Char) :=
  let admin_emails_str := pyStrip (env.ADMIN_EMAILS.getD [])
  if admin_emails_str = [] then
    let admin_email := pyStrip (env.ADMIN_EMAIL.getD [])
    if admin_email = [] then [] else [pyLower admin_email]
  else
    (((admin_emails_str.splitOn ',').map pyStrip).filter (fun e => !e.isEmpty)).map pyLower

/-- `config.is_admin_email`: allow-list membership test on the trimmed,
lowercased email; empty input or empty allow-list yields `false`. -/
def is_admin_email (env : Env) (email : List Char) : Bool :=
  if email = [] then false
  else
    let email_normalized := normEmail email
    if email_normalized = [] then false
    else
      let admin_emails := get_admin_emails env
      if admin_emails = [] then false
      else admin_emails.contains email_normalized

/-- A document of the `users` collection (`models.User`). -/
structure UserDoc where
  id : Nat
  email : List Char
  password_hash : Option (List Char)
  role : String
  is_verified : Bool
  google_id : Option (List Char)
  created_at : Int
deriving Repr, DecidableEq

/-- A document of the `otps` collection (`models.OTP`). -/
structure OTPDoc where
  email : List Char
  otp_code : String
  created_at : Int
  used : Bool
deriving Repr, DecidableEq

/-- The database state: the two collections the auth core touches. -/
structure Db where
  users : List UserDoc
  otps : List OTPDoc
deriving Repr, DecidableEq

/-- Python truthiness of an optional string (`if password:`). -/
def pyTruthy : Option (List Char) → Bool
  | none => false
  | some s => !s.isEmpty

/-- Stand-in for `bcrypt.hashpw`: an uninterpreted injective tag on the
password (the code never inspects hash contents, only stores them and
checks a password against one). -/
def hashpw (password : List Char) : List Char :=
  '#' :: password

/-- `User.check_password`: false when no hash is stored, else compare
(`bcrypt.checkpw` modelled as equality with `hashpw`). -/
def checkpw (password : List Char) : Option (List Char) → Bool
  | none => false
  | some h => h == hashpw password

/-- MongoDB `update_one`: apply `f` to the first document whose `_id`
matches, leaving the rest untouched. -/
def updateById : List UserDoc → Nat → (UserDoc → UserDoc) → List UserDoc
  | [], _, _ => []
  | u :: rest, id, f =>
    if u.id == id then f u :: rest else u :: updateById rest id f

namespace User

/-- `models.User.role` (dynamic property): `admin` when the allow-list
reports the email, else the stored role. -/
def role (env : Env) (u : UserDoc) : String :=
  if is_admin_email env u.email then "admin" else u.role

/-- `models.User.get_stored_role`. -/
def get_stored_role (u : UserDoc) : String :=
  u.role

/-- `models.User.is_admin`: allow-list check first, stored role as fallback. -/
def is_admin (env : Env) (u : UserDoc) : Bool :=
  if is_admin_email env u.email then true else u.role == "admin"

/-- `models.User.create`: normalise the email, derive the role from the
allow-list when none is given, hash the password when one is supplied
(otherwise the user is pre-verified, the Google OAuth case), and insert.
`newId` stands for the `_id` MongoDB generates. -/
def create (env : Env) (users : List UserDoc) (newId : Nat) (now : Int)
    (email : List Char) (password : Option (List Char)) (roleArg : Option String)
    (google_id : Option (List Char)) : List UserDoc × UserDoc :=
  let normalized_email := normEmail email
  let r := match roleArg with
    | some r => r
    | none => if is_admin_email env normalized_email then "admin" else "user"
  let doc : UserDoc :=
    if pyTruthy password then
      { id := newId, email := normalized_email,
        password_hash := some (hashpw (password.getD [])), role := r,
        is_verified := false, google_id := google_id, created_at := now }
    else
      { id := newId, email := normalized_email, password_hash := none, role := r,
        is_verified := true, google_id := google_id, created_at := now }
  (users ++ [doc], doc)

/-- `models.User.find_by_email`: normalise, reject empty, `find_one`. -/
def find_by_email (users : List UserDoc) (email : List Char) : Option UserDoc :=
  let e := normEmail email
  if e = [] then none
  else users.find? (fun u => u.email == e)

/-- `models.User.find_by_google_id`. -/
def find_by_google_id (users : List UserDoc) (google_id : Option (List Char)) :
    Option UserDoc :=
  users.find? (fun u => u.google_id == google_id)

/-- `models.User.verify`: set `is_verified` in the collection and on the
in-memory object. -/
def verifyUser (users : List UserDoc) (u : UserDoc) : List UserDoc × UserDoc :=
  (updateById users u.id (fun x => { x with is_verified := true }),
   { u with is_verified := true })

/-- `models.User.update_role`. -/
def update_role (users : List UserDoc) (u : UserDoc) (r : String) :
    List UserDoc × UserDoc :=
  (updateById users u.id (fun x => { x with role := r }), { u with role := r })

end User

namespace OTP

/-- `models.OTP.create`: insert a fresh, unused code stamped `now`. -/
def create (otps : List OTPDoc) (now : Int) (email : List Char) (otp_code : String) :
    List OTPDoc :=
  otps ++ [{ email := email, otp_code := otp_code, created_at := now, used := false }]

/-- `models.OTP.find_valid`: a record for `(email, code)` exists, unused,
with `created_at >= now - OTP_EXPIRY_MINUTES` (the Mongo `gte` filter). -/
def find_valid (otps : List OTPDoc) (now expiry_minutes : Int)
    (email : List Char) (otp_code : String) : Bool :=
  let expiry_time := now - expiry_minutes
  otps.any (fun o =>
    o.email == email && o.otp_code == otp_code && o.used == false &&
    decide (expiry_time ≤ o.created_at))

/-- `models.OTP.mark_used`: `update_one` on `(email, otp_code)` — only the
first matching record is marked. -/
def mark_used : List OTPDoc → List Char → String → List OTPDoc
  | [], _, _ => []
  | o :: rest, email, otp_code =>
    if o.email == email && o.otp_code == otp_code then
      { o with used := true } :: rest
    else
      o :: mark_used rest email otp_code

end OTP

/-- The role-synchronisation block repeated verbatim in `login`,
`verify_otp` and `google_callback` (`auth/routes.py`): compare the
allow-list verdict with the stored role and call `update_role` on
divergence.  Returns the (possibly updated) user object and whether a
write happened. -/
def reconcileRole (env : Env) (u : UserDoc) : UserDoc × Bool :=
  let should_be_admin := is_admin_email env u.email
  let current_role_is_admin := u.role == "admin"
  if should_be_admin && !current_role_is_admin then ({ u with role := "admin" }, true)
  else if !should_be_admin && current_role_is_admin then ({ u with role := "user" }, true)
  else (u, false)

/-- The same block including its database effect (`User.update_role`). -/
def reconcileDb (env : Env) (users : List UserDoc) (u : UserDoc) :
    List UserDoc × UserDoc × Bool :=
  let r := reconcileRole env u
  if r.2 then
    (updateById users u.id (fun x => { x with role := r.1.role }), r.1, true)
  else
    (users, u, false)

/-- The reconcile operation as §4.2 of the spec words it: the effective
role is `admin` when allow-listed, else the stored role, persisted exactly
when it differs from the stored role.  Kept for comparison with
`reconcileRole`, which is the code's behaviour. -/
def reconcileSpec (env : Env) (u : UserDoc) : UserDoc × Bool :=
  let eff := if is_admin_email env u.email then "admin" else u.role
  if eff = u.role then (u, false) else ({ u with role := eff }, true)

/-- Outcome of the registration route. -/
inductive RegisterOutcome
  | alreadyVerified
  | otpIssued (email_sent : Bool)
deriving Repr, DecidableEq

/-- Result of the registration route: database, session `pending_email`,
outcome. -/
structure RegisterResult where
  db : Db
  pending_email : Option (List Char)
  outcome : RegisterOutcome
deriving Repr, DecidableEq

/-- `auth/routes.register` (validated-POST path): reject a verified email;
update password hash and role of an existing unverified user; otherwise
create the user; then persist a fresh OTP, record the pending email in the
session and report whether the delivery attempt succeeded (`email_sent`
bundles the mail-configured check and the send outcome; a failure only
affects the flash message). `pending0` is the session value before the
request, `newId` the `_id` for a possible insert. -/
def register (env : Env) (db : Db) (now : Int) (newId : Nat)
    (emailInput password : List Char) (otp_code : String)
    (email_sent : Bool) (pending0 : Option (List Char)) : RegisterResult :=
  let email := normEmail emailInput
  match User.find_by_email db.users email with
  | some existing_user =>
    if existing_user.is_verified then
      { db := db, pending_email := pending0, outcome := .alreadyVerified }
    else
      let password_hash := hashpw password
      let r := if is_admin_email env email then "admin" else "user"
      let users := updateById db.users existing_user.id
        (fun x => { x with password_hash := some password_hash, role := r })
      let otps := OTP.create db.otps now email otp_code
      { db := { users := users, otps := otps }, pending_email := some email,
        outcome := .otpIssued email_sent }
  | none =>
    let res := User.create env db.users newId now email (some password) none none
    let otps := OTP.create db.otps now email otp_code
    { db := { users := res.1, otps := otps }, pending_email := some email,
      outcome := .otpIssued email_sent }

/-- Outcome of the login route. -/
inductive LoginOutcome
  | success
  | notVerified
  | invalidCredentials
deriving Repr, DecidableEq

/-- Result of the login route. -/
structure LoginResult where
  db : Db
  outcome : LoginOutcome
  logged_in : Option UserDoc
deriving Repr, DecidableEq

/-- `auth/routes.login` (validated-POST path): password check, verified
check, then the role-synchronisation block, then `login_user`. -/
def login (env : Env) (db : Db) (emailInput password : List Char) : LoginResult :=
  match User.find_by_email db.users emailInput with
  | some user =>
    if checkpw password user.password_hash then
      if !user.is_verified then
        { db := db, outcome := .notVerified, logged_in := none }
      else
        let r := reconcileDb env db.users user
        { db := { db with users := r.1 }, outcome := .success,
          logged_in := some r.2.1 }
    else
      { db := db, outcome := .invalidCredentials, logged_in := none }
  | none => { db := db, outcome := .invalidCredentials, logged_in := none }

/-- Outcome of the OTP-verification route. -/
inductive VerifyOutcome
  | noPending
  | invalidCode
  | userMissing
  | success
deriving Repr, DecidableEq

/-- Result of the OTP-verification route. -/
structure VerifyResult where
  db : Db
  pending_email : Option (List Char)
  outcome : VerifyOutcome
  logged_in : Option UserDoc
deriving Repr, DecidableEq

/-- `auth/routes.verify_otp` (validated-POST path): require a pending
email, validate and consume the code, look the user up, run the
role-synchronisation block, mark verified, log in and clear the session. -/
def verify_otp (env : Env) (db : Db) (now expiry_minutes : Int)
    (pending : Option (List Char)) (otp_code : String) : VerifyResult :=
  match pending with
  | none =>
    { db := db, pending_email := none, outcome := .noPending, logged_in := none }
  | some pending_email =>
    if OTP.find_valid db.otps now expiry_minutes pending_email otp_code then
      let otps := OTP.mark_used db.otps pending_email otp_code
      match User.find_by_email db.users pending_email with
      | none =>
        { db := { db with otps := otps }, pending_email := none,
          outcome := .userMissing, logged_in := none }
      | some user =>
        let r := reconcileDb env db.users user
        let v := User.verifyUser r.1 r.2.1
        { db := { users := v.1, otps := otps }, pending_email := none,
          outcome := .success, logged_in := some v.2 }
    else
      { db := db, pending_email := some pending_email, outcome := .invalidCode,
        logged_in := none }

/-- `utils.find_or_create_user_google`: find by Google id, else link the
Google id to an existing email account (marking it verified), else create
a fresh pre-verified user without a credential. -/
def find_or_create_user_google (env : Env) (db : Db) (newId : Nat) (now : Int)
    (google_id : Option (List Char)) (email : List Char) : List UserDoc × UserDoc :=
  match User.find_by_google_id db.users google_id with
  | some user => (db.users, user)
  | none =>
    match User.find_by_email db.users email with
    | some user =>
      (updateById db.users user.id
        (fun x => { x with google_id := google_id, is_verified := true }),
       { user with google_id := google_id, is_verified := true })
    | none => User.create env db.users newId now email none none google_id

/-- Result of the Google OAuth callback route. -/
structure CallbackResult where
  db : Db
  logged_in : UserDoc
deriving Repr, DecidableEq

/-- `auth/routes.google_callback` (successful-handshake path): find or
create the user, run the role-synchronisation block, log in. -/
def google_callback (env : Env) (db : Db) (newId : Nat) (now : Int)
    (google_id : Option (List Char)) (email : List Char) : CallbackResult :=
  let fc := find_or_create_user_google env db newId now google_id email
  let r := reconcileDb env fc.1 fc.2
  { db := { db with users := r.1 }, logged_in := r.2.1 }

/-- An authorization-gate decision with its denial kind. -/
inductive GateDecision
  | allow
  | denyUnauthenticated
  | denyNotVerified
  | denyForbidden
deriving Repr, DecidableEq

/-- `decorators.admin_required`: authenticated, then verified, then the
allow-list check with the stored role as fallback; first failure denies. -/
def admin_required (env : Env) (actor : Option UserDoc) : GateDecision :=
  match actor with
  | none => .denyUnauthenticated
  | some u =>
    if !u.is_verified then .denyNotVerified
    else
      let is_adm := if is_admin_email env u.email then true else u.role == "admin"
      if !is_adm then .denyForbidden else .allow

/-- `decorators.user_only`: authenticated, then verified, then deny the
same admin check that `admin_required` requires. -/
def user_only (env : Env) (actor : Option UserDoc) : GateDecision :=
  match actor with
  | none => .denyUnauthenticated
  | some u =>
    if !u.is_verified then .denyNotVerified
    else
      let is_adm := if is_admin_email env u.email then true else u.role == "admin"
      if is_adm then .denyForbidden else .allow

/-- Number of user documents carrying a given (already normalised) email. -/
def countEmail (users : List UserDoc) (e : List Char) : Nat :=
  (users.filter (fun u => u.email == e)).length

/-- C1 counterexample: for the non-allow-listed email `a@x.com` with stored
role `admin`, the role synchronisation run at login writes `user` into the
stored role and reports a change, where the claim requires the stored role
to be left unchanged with outcome `unchanged` (as `reconcileSpec`, the
spec's wording, does). -/
theorem C1_counterexample :
    let env : Env := { ADMIN_EMAILS := none, ADMIN_EMAIL := none }
    let u : UserDoc :=
      { id := 0, email := "a@x.com".data, password_hash := none,
        role := "admin", is_verified := true, google_id := none, created_at := 0 }
    is_admin_email env u.email = false
      ∧ reconcileRole env u = ({ u with role := "user" }, true)
      ∧ reconcileSpec env u = (u, false) := by
  decide

/-- C2 counterexample: a code whose age is exactly the expiry window is
accepted by `find_valid` (the Mongo filter is `gte`, not strict), against
the claim's strict inequality; and when two records hold the same
`(email, code)` pair, consuming the code marks only one of them, so a
second verification with the same code still succeeds. -/
theorem C2_counterexample :
    (OTP.find_valid
        [{ email := "a@x.com".data, otp_code := "123456", created_at := 0, used := false }]
        10 10 "a@x.com".data "123456" = true
      ∧ ¬ ((10 : Int) - (0 : Int) < 10))
  ∧ OTP.find_valid
      (OTP.mark_used
        [{ email := "a@x.com".data, otp_code := "123456", created_at := 0, used := false },
         { email := "a@x.com".data, otp_code := "123456", created_at := 0, used := false }]
        "a@x.com".data "123456")
      5 10 "a@x.com".data "123456" = true := by
  decide

/-- C3 counterexample: register `a@x.com` with a password (credentialed,
unverified), then complete a Google login with the same email: the
resulting identity is verified and still holds the credential, while every
one-time code in the store is still unused — so a credentialed identity
became verified without completing the verification state machine. -/
theorem C3_counterexample :
    let env : Env := { ADMIN_EMAILS := none, ADMIN_EMAIL := none }
    let r1 := register env { users := [], otps := [] } 0 0 "a@x.com".data "pw".data
      "123456" true none
    let g := find_or_create_user_google env r1.db 1 5 (some "sub1".data) "a@x.com".data
    g.2.is_verified = true
      ∧ g.2.password_hash = some (hashpw "pw".data)
      ∧ r1.db.otps.all (fun o => !o.used) = true
      ∧ (g.1.map (fun u => (u.is_verified, u.password_hash.isSome))) = [(true, true)] := by
  decide

/-- C4 counterexample: registering an existing unverified identity whose
stored role is `admin` while its email is not on the allow-list rewrites
the stored role to `user` — `register` does not leave `stored_role`
unchanged. -/
theorem C4_counterexample :
    (register { ADMIN_EMAILS := none, ADMIN_EMAIL := none }
      { users := [{ id := 7, email := "a@x.com".data,
                    password_hash := some (hashpw "old".data), role := "admin",
                    is_verified := false, google_id := none, created_at := 0 }],
        otps := [] }
      3 8 "a@x.com".data "new".data "222222" true none).db.users.map (fun u => u.role)
      = ["user"] := by
  decide

/-- C5: the effective role (`User.role`) is `admin` exactly when the
allow-list resolver reports the email, regardless of the stored role, and
equals the stored role otherwise; the resolver compares the trimmed,
lowercased email against the parsed allow-list (so it is invariant under
that normalisation), and an empty or absent allow-list configuration
yields `false` for every input. -/
theorem C5_effective_role_policy :
    (∀ (env : Env) (u : UserDoc),
       is_admin_email env u.email = true → User.role env u = "admin")
  ∧ (∀ (env : Env) (u : UserDoc),
       is_admin_email env u.email = false → User.role env u = u.role)
  ∧ (∀ (env : Env) (e : List Char),
       is_admin_email env e =
         (!(normEmail e).isEmpty && (get_admin_emails env).contains (normEmail e)))
  ∧ (∀ (env : Env) (e : List Char),
       get_admin_emails env = [] → is_admin_email env e = false)
  ∧ (∀ (env : Env) (e : List Char), normEmail (normEmail e) = normEmail e →
       is_admin_email env (normEmail e) = is_admin_email env e) := by
  refine ⟨?_, ?_, ?_, ?_, ?_⟩
  · intro env u h
    simp [User.role, h]
  · intro env u h
    simp [User.role, h]
  · intro env e
    by_cases he : e = []
    · subst he
      simp [is_admin_email, normEmail, pyStrip, pyLower]
    · simp only [is_admin_email, if_neg he]
      by_cases hn : normEmail e = []
      · simp [hn]
      · simp only [if_neg hn]
        by_cases ha : get_admin_emails env = []
        · simp [ha, hn]
        · simp [ha, List.isEmpty_iff, hn]
  · intro env e h
    simp [is_admin_email, h]
  · intro env e h
    by_cases he : e = []
    · subst he
      rfl
    · by_cases hn : normEmail e = []
      · rw [hn]
        simp [is_admin_email, he, hn]
      · simp only [is_admin_email, if_neg he, if_neg hn, h]

/-- C5 witness: a spaced, mixed-case variant of an allow-listed address is
effective-admin despite stored role `user`; with an empty configuration a
user keeps the stored role and the resolver rejects; the resolver is
normalisation-invariant at a concrete email. -/
theorem C5_witness :
    User.role { ADMIN_EMAILS := some " Boss@X.com , other@y.com".data, ADMIN_EMAIL := none }
      { id := 0, email := "  BOSS@x.CoM ".data, password_hash := none, role := "user",
        is_verified := true, google_id := none, created_at := 0 } = "admin"
  ∧ User.role { ADMIN_EMAILS := none, ADMIN_EMAIL := none }
      { id := 1, email := "a@x.com".data, password_hash := none, role := "user",
        is_verified := true, google_id := none, created_at := 0 } = "user"
  ∧ is_admin_email { ADMIN_EMAILS := none, ADMIN_EMAIL := none } "a@x.com".data = false
  ∧ is_admin_email { ADMIN_EMAILS := some " Boss@X.com ".data, ADMIN_EMAIL := none }
      (normEmail "  BOSS@x.CoM ".data)
    = is_admin_email { ADMIN_EMAILS := some " Boss@X.com ".data, ADMIN_EMAIL := none }
      "  BOSS@x.CoM ".data := by
  have h := C5_effective_role_policy
  refine ⟨h.1 _ _ (by decide), h.2.1 _ _ (by decide), h.2.2.2.1 _ _ (by decide),
    h.2.2.2.2 _ _ (by decide)⟩

/-- C7: both gates deny an unauthenticated actor with the authentication
error and an unverified actor with the verification error, in that order;
for an authenticated, verified actor `admin_required` allows exactly the
effective admins (denying the rest with the role error), `user_only`
allows exactly the non-admins (denying admins with the role error), so
exactly one of the two gates allows any authenticated, verified actor. -/
theorem C7_gate_partition :
    (∀ env : Env, admin_required env none = .denyUnauthenticated
       ∧ user_only env none = .denyUnauthenticated)
  ∧ (∀ (env : Env) (u : UserDoc), u.is_verified = false →
       admin_required env (some u) = .denyNotVerified
       ∧ user_only env (some u) = .denyNotVerified)
  ∧ (∀ (env : Env) (u : UserDoc), u.is_verified = true →
       (admin_required env (some u) = .allow ↔ User.is_admin env u = true)
       ∧ (user_only env (some u) = .allow ↔ User.is_admin env u = false)
       ∧ (User.is_admin env u = false → admin_required env (some u) = .denyForbidden)
       ∧ (User.is_admin env u = true → user_only env (some u) = .denyForbidden)
       ∧ ((admin_required env (some u) = .allow) ↔ ¬ user_only env (some u) = .allow)) := by
  refine ⟨fun env => ⟨rfl, rfl⟩, ?_, ?_⟩
  · intro env u h
    simp [admin_required, user_only, h]
  · intro env u h
    cases ha : is_admin_email env u.email <;> by_cases hr : u.role = "admin" <;>
      simp_all [admin_required, user_only, User.is_admin]

/-- C7 witness: with allow-list `boss@x.com`, the verified admin passes
`admin_required` and is turned away by `user_only`, a verified regular
user the other way round, an unverified user is denied for verification,
and an anonymous actor for authentication. -/
theorem C7_witness :
    admin_required { ADMIN_EMAILS := some "boss@x.com".data, ADMIN_EMAIL := none } none
      = .denyUnauthenticated
  ∧ admin_required { ADMIN_EMAILS := some "boss@x.com".data, ADMIN_EMAIL := none }
      (some { id := 0, email := "a@x.com".data, password_hash := none, role := "user",
              is_verified := false, google_id := none, created_at := 0 })
      = .denyNotVerified
  ∧ admin_required { ADMIN_EMAILS := some "boss@x.com".data, ADMIN_EMAIL := none }
      (some { id := 1, email := "boss@x.com".data, password_hash := none, role := "user",
              is_verified := true, google_id := none, created_at := 0 })
      = .allow
  ∧ user_only { ADMIN_EMAILS := some "boss@x.com".data, ADMIN_EMAIL := none }
      (some { id := 1, email := "boss@x.com".data, password_hash := none, role := "user",
              is_verified := true, google_id := none, created_at := 0 })
      = .denyForbidden
  ∧ user_only { ADMIN_EMAILS := some "boss@x.com".data, ADMIN_EMAIL := none }
      (some { id := 2, email := "a@x.com".data, password_hash := none, role := "user",
              is_verified := true, google_id := none, created_at := 0 })
      = .allow := by
  have h := C7_gate_partition
  refine ⟨(h.1 _).1, (h.2.1 _ _ (by decide)).1, ?_, ?_, ?_⟩
  · exact (h.2.2 _ _ (by decide)).1.mpr (by decide)
  · exact (h.2.2 _ _ (by decide)).2.2.2.1 (by decide)
  · exact (h.2.2 _ _ (by decide)).2.1.mpr (by decide)

/-- C8: the role synchronisation is idempotent — applied to its own
output (same allow-list) it reports no change; after the first call the
effective role coincides with the stored role, and the second
database-level call writes nothing. -/
theorem C8_reconcile_idempotent :
    ∀ (env : Env) (u : UserDoc),
      reconcileRole env (reconcileRole env u).1 = ((reconcileRole env u).1, false)
      ∧ User.role env (reconcileRole env u).1 = (reconcileRole env u).1.role
      ∧ (∀ users : List UserDoc,
          (reconcileDb env (reconcileDb env users u).1 (reconcileDb env users u).2.1).1
            = (reconcileDb env users u).1) := by
  intro env u
  have h1 : reconcileRole env (reconcileRole env u).1 = ((reconcileRole env u).1, false) := by
    cases ha : is_admin_email env u.email <;> cases hr : u.role == "admin" <;>
      simp_all [reconcileRole]
  have h2 : User.role env (reconcileRole env u).1 = (reconcileRole env u).1.role := by
    cases ha : is_admin_email env u.email <;> cases hr : u.role == "admin" <;>
      simp_all [reconcileRole, User.role]
  refine ⟨h1, h2, ?_⟩
  intro users
  simp only [reconcileDb]
  cases hc : (reconcileRole env u).2
  · simp [hc, h1]
  · simp [h1]

/-- C10: the boolean admin check `User.is_admin` agrees with the dynamic
role property evaluating to `admin` — both amount to allow-list membership
or stored role `admin` — and the gate's decomposed check admits exactly
the verified users whose dynamic role is `admin`. -/
theorem C10_admin_checks_agree :
    ∀ (env : Env) (u : UserDoc),
      (User.is_admin env u = true ↔ User.role env u = "admin")
      ∧ User.is_admin env u = (is_admin_email env u.email || u.role == "admin")
      ∧ (admin_required env (some u) = .allow ↔
          (u.is_verified = true ∧ User.role env u = "admin")) := by
  intro env u
  cases ha : is_admin_email env u.email <;> cases hv : u.is_verified <;>
    by_cases hr : u.role = "admin" <;>
      simp_all [User.is_admin, User.role, admin_required]

/-- C10 witness: a user with stored role `admin` off the allow-list and an
allow-listed user with stored role `user` are both admitted by both
checks; a plain user by neither. -/
theorem C10_witness :
    User.is_admin { ADMIN_EMAILS := none, ADMIN_EMAIL := none }
      { id := 0, email := "a@x.com".data, password_hash := none, role := "admin",
        is_verified := true, google_id := none, created_at := 0 } = true
  ∧ User.role { ADMIN_EMAILS := none, ADMIN_EMAIL := none }
      { id := 0, email := "a@x.com".data, password_hash := none, role := "admin",
        is_verified := true, google_id := none, created_at := 0 } = "admin"
  ∧ admin_required { ADMIN_EMAILS := some "boss@x.com".data, ADMIN_EMAIL := none }
      (some { id := 1, email := "boss@x.com".data, password_hash := none, role := "user",
              is_verified := true, google_id := none, created_at := 0 }) = .allow
  ∧ User.is_admin { ADMIN_EMAILS := none, ADMIN_EMAIL := none }
      { id := 2, email := "b@x.com".data, password_hash := none, role := "user",
        is_verified := true, google_id := none, created_at := 0 } = false := by
  have h := C10_admin_checks_agree
  refine ⟨by decide, (h _ _).1.mp (by decide), ?_, by decide⟩
  exact (h _ _).2.2.mpr (by decide)

/-- `updateById` never changes the number of documents. -/
lemma length_updateById (users : List UserDoc) (id : Nat) (f : UserDoc → UserDoc) :
    (updateById users id f).length = users.length := by
  induction users with
  | nil => rfl
  | cons u rest ih =>
    by_cases h : (u.id == id) = true
    · simp [updateById, h]
    · simp [updateById, h, ih]

/-- A code inserted by `OTP.create` at time `now` validates at time `now`
for any non-negative expiry window. -/
lemma find_valid_create (otps : List OTPDoc) (now W : Int) (e : List Char) (c : String)
    (hW : 0 ≤ W) : OTP.find_valid (OTP.create otps now e c) now W e c = true := by
  unfold OTP.find_valid OTP.create
  rw [List.any_append]
  have h : now - W ≤ now := by omega
  simp [h]
  exact Or.inr hW

/-- C1 (amended): the role synchronisation run at every successful
authentication event computes the target role `admin` when the allow-list
reports the email and `user` otherwise — not the stored role as fallback —
and persists it exactly when it differs from the stored role, reporting a
change in that case; so a non-allow-listed identity with stored role
`user` is untouched, while a non-allow-listed identity with stored role
`admin` is demoted to `user` (a change).  The block runs in the password
login, the OTP-verified login and the federated login. -/
theorem C1_amended :
    (∀ (env : Env) (u : UserDoc), u.role = "user" ∨ u.role = "admin" →
       reconcileRole env u =
         (if (if is_admin_email env u.email then "admin" else "user") = u.role
          then (u, false)
          else ({ u with role := if is_admin_email env u.email then "admin" else "user" },
                true)))
  ∧ (∀ (env : Env) (db : Db) (e pw : List Char) (u : UserDoc),
       User.find_by_email db.users e = some u →
       checkpw pw u.password_hash = true →
       u.is_verified = true →
       login env db e pw =
         { db := { db with users := (reconcileDb env db.users u).1 },
           outcome := .success, logged_in := some (reconcileDb env db.users u).2.1 })
  ∧ (∀ (env : Env) (db : Db) (now W : Int) (pe : List Char) (c : String) (u : UserDoc),
       OTP.find_valid db.otps now W pe c = true →
       User.find_by_email db.users pe = some u →
       verify_otp env db now W (some pe) c =
         { db := { users := (User.verifyUser (reconcileDb env db.users u).1
                     (reconcileDb env db.users u).2.1).1,
                   otps := OTP.mark_used db.otps pe c },
           pending_email := none, outcome := .success,
           logged_in := some (User.verifyUser (reconcileDb env db.users u).1
                     (reconcileDb env db.users u).2.1).2 })
  ∧ (∀ (env : Env) (db : Db) (newId : Nat) (now : Int) (gid : Option (List Char))
       (e : List Char),
       google_callback env db newId now gid e =
         { db := { db with users :=
             (reconcileDb env (find_or_create_user_google env db newId now gid e).1
               (find_or_create_user_google env db newId now gid e).2).1 },
           logged_in := (reconcileDb env (find_or_create_user_google env db newId now gid e).1
               (find_or_create_user_google env db newId now gid e).2).2.1 }) := by
  refine ⟨?_, ?_, ?_, ?_⟩
  · intro env u hu
    rcases hu with h | h <;> cases ha : is_admin_email env u.email <;>
      simp [reconcileRole, h, ha]
  · intro env db e pw u hfind hpw hver
    simp [login, hfind, hpw, hver]
  · intro env db now W pe c u hvalid hfind
    simp [verify_otp, hvalid, hfind]
  · intro env db newId now gid e
    rfl

/-- C1 witness: an allow-listed identity with stored role `user` is
promoted with a reported change; a concrete password login with matching
credentials runs the synchronisation block; so do a concrete OTP
verification and a concrete federated callback. -/
theorem C1_witness :
    (reconcileRole { ADMIN_EMAILS := some "boss@x.com".data, ADMIN_EMAIL := none }
      { id := 0, email := "boss@x.com".data, password_hash := none, role := "user",
        is_verified := true, google_id := none, created_at := 0 }).2 = true
  ∧ (reconcileRole { ADMIN_EMAILS := some "boss@x.com".data, ADMIN_EMAIL := none }
      { id := 0, email := "boss@x.com".data, password_hash := none, role := "user",
        is_verified := true, google_id := none, created_at := 0 }).1.role = "admin"
  ∧ (login { ADMIN_EMAILS := some "boss@x.com".data, ADMIN_EMAIL := none }
      { users := [{ id := 1, email := "boss@x.com".data,
                    password_hash := some (hashpw "pw".data), role := "user",
                    is_verified := true, google_id := none, created_at := 0 }], otps := [] }
      "boss@x.com".data "pw".data).outcome = .success
  ∧ (verify_otp { ADMIN_EMAILS := none, ADMIN_EMAIL := none }
      { users := [{ id := 2, email := "a@x.com".data,
                    password_hash := some (hashpw "pw".data), role := "user",
                    is_verified := false, google_id := none, created_at := 0 }],
        otps := [{ email := "a@x.com".data, otp_code := "123456", created_at := 0,
                   used := false }] }
      5 10 (some "a@x.com".data) "123456").outcome = .success
  ∧ (google_callback { ADMIN_EMAILS := some "boss@x.com".data, ADMIN_EMAIL := none }
      { users := [], otps := [] } 9 0 (some "sub1".data) "boss@x.com".data).logged_in.role
      = "admin" := by
  have h := C1_amended
  have e1 := h.1 { ADMIN_EMAILS := some "boss@x.com".data, ADMIN_EMAIL := none }
    { id := 0, email := "boss@x.com".data, password_hash := none, role := "user",
      is_verified := true, google_id := none, created_at := 0 }
    (Or.inl rfl)
  have e2 := h.2.1 { ADMIN_EMAILS := some "boss@x.com".data, ADMIN_EMAIL := none }
    { users := [{ id := 1, email := "boss@x.com".data,
                  password_hash := some (hashpw "pw".data), role := "user",
                  is_verified := true, google_id := none, created_at := 0 }], otps := [] }
    "boss@x.com".data "pw".data
    { id := 1, email := "boss@x.com".data, password_hash := some (hashpw "pw".data),
      role := "user", is_verified := true, google_id := none, created_at := 0 }
    (by decide) (by decide) (by decide)
  have e3 := h.2.2.1 { ADMIN_EMAILS := none, ADMIN_EMAIL := none }
    { users := [{ id := 2, email := "a@x.com".data,
                  password_hash := some (hashpw "pw".data), role := "user",
                  is_verified := false, google_id := none, created_at := 0 }],
      otps := [{ email := "a@x.com".data, otp_code := "123456", created_at := 0,
                 used := false }] }
    5 10 "a@x.com".data "123456"
    { id := 2, email := "a@x.com".data, password_hash := some (hashpw "pw".data),
      role := "user", is_verified := false, google_id := none, created_at := 0 }
    (by decide) (by decide)
  have e4 := h.2.2.2 { ADMIN_EMAILS := some "boss@x.com".data, ADMIN_EMAIL := none }
    { users := [], otps := [] } 9 0 (some "sub1".data) "boss@x.com".data
  refine ⟨?_, ?_, ?_, ?_, ?_⟩
  · rw [e1]
    decide
  · rw [e1]
    decide
  · rw [e2]
  · rw [e3]
  · rw [e4]
    decide

/-- C4 (amended): registration on an existing unverified identity updates
its credential and also rewrites the stored role from the current
allow-list (`admin` when listed, else `user`), touching nothing else and
creating no record — so the stored role is mutated by registration as well
as by reconciliation and creation. -/
theorem C4_amended :
    ∀ (env : Env) (db : Db) (now : Int) (newId : Nat)
      (emailInput pw : List Char) (c : String) (m : Bool)
      (p0 : Option (List Char)) (u : UserDoc),
      User.find_by_email db.users (normEmail emailInput) = some u →
      u.is_verified = false →
      (register env db now newId emailInput pw c m p0).db.users =
        updateById db.users u.id
          (fun x =>
            { x with
              password_hash := some (hashpw pw),
              role := if is_admin_email env (normEmail emailInput) then "admin" else "user" })
      ∧ (register env db now newId emailInput pw c m p0).db.users.length
          = db.users.length := by
  intro env db now newId emailInput pw c m p0 u hfind hver
  constructor
  · simp [register, hfind, hver]
  · simp [register, hfind, hver, length_updateById]

/-- C4 witness: re-registering the unverified `a@x.com` (stored role
`admin`, not allow-listed) rewrites its credential and role in place
without adding a record. -/
theorem C4_witness :
    (register { ADMIN_EMAILS := none, ADMIN_EMAIL := none }
      { users := [{ id := 7, email := "a@x.com".data,
                    password_hash := some (hashpw "old".data), role := "admin",
                    is_verified := false, google_id := none, created_at := 0 }],
        otps := [] }
      3 8 "a@x.com".data "new".data "222222" true none).db.users =
      updateById
        [{ id := 7, email := "a@x.com".data, password_hash := some (hashpw "old".data),
           role := "admin", is_verified := false, google_id := none, created_at := 0 }] 7
        (fun x =>
          { x with
            password_hash := some (hashpw "new".data),
            role := if is_admin_email { ADMIN_EMAILS := none, ADMIN_EMAIL := none }
                (normEmail "a@x.com".data) then "admin" else "user" })
    ∧ (register { ADMIN_EMAILS := none, ADMIN_EMAIL := none }
      { users := [{ id := 7, email := "a@x.com".data,
                    password_hash := some (hashpw "old".data), role := "admin",
                    is_verified := false, google_id := none, created_at := 0 }],
        otps := [] }
      3 8 "a@x.com".data "new".data "222222" true none).db.users.length = 1 := by
  exact C4_amended { ADMIN_EMAILS := none, ADMIN_EMAIL := none }
    { users := [{ id := 7, email := "a@x.com".data,
                  password_hash := some (hashpw "old".data), role := "admin",
                  is_verified := false, google_id := none, created_at := 0 }],
      otps := [] }
    3 8 "a@x.com".data "new".data "222222" true none
    { id := 7, email := "a@x.com".data, password_hash := some (hashpw "old".data),
      role := "admin", is_verified := false, google_id := none, created_at := 0 }
    (by decide) (by decide)

/-- C9: the registration route's persisted state does not depend on the
delivery outcome — the fresh code is persisted and valid and the pending
email is carried to the verification step even when delivery fails — and a
failed delivery is reported to the caller through the outcome. -/
theorem C9_delivery_failure_no_rollback :
    ∀ (env : Env) (db : Db) (now : Int) (newId : Nat) (emailInput pw : List Char)
      (c : String) (p0 : Option (List Char)) (W : Int) (sent : Bool),
      0 ≤ W →
      (∀ u, User.find_by_email db.users (normEmail emailInput) = some u →
         u.is_verified = false) →
      (register env db now newId emailInput pw c sent p0).db
          = (register env db now newId emailInput pw c true p0).db
      ∧ (register env db now newId emailInput pw c sent p0).pending_email
          = some (normEmail emailInput)
      ∧ OTP.find_valid (register env db now newId emailInput pw c sent p0).db.otps
          now W (normEmail emailInput) c = true
      ∧ (register env db now newId emailInput pw c false p0).outcome
          = .otpIssued false := by
  intro env db now newId emailInput pw c p0 W sent hW hunv
  cases hf : User.find_by_email db.users (normEmail emailInput) with
  | none =>
    refine ⟨?_, ?_, ?_, ?_⟩ <;>
      simp [register, hf, find_valid_create, hW]
  | some u =>
    have hu := hunv u hf
    refine ⟨?_, ?_, ?_, ?_⟩ <;>
      simp [register, hf, hu, find_valid_create, hW]

/-- C9 witness: registering `a@x.com` on an empty store with delivery
failing still persists a code that validates immediately, still records
the pending email, and reports the failure. -/
theorem C9_witness :
    (register { ADMIN_EMAILS := none, ADMIN_EMAIL := none } { users := [], otps := [] }
        0 0 "a@x.com".data "pw".data "123456" false none).db
      = (register { ADMIN_EMAILS := none, ADMIN_EMAIL := none } { users := [], otps := [] }
        0 0 "a@x.com".data "pw".data "123456" true none).db
  ∧ (register { ADMIN_EMAILS := none, ADMIN_EMAIL := none } { users := [], otps := [] }
        0 0 "a@x.com".data "pw".data "123456" false none).pending_email
      = some (normEmail "a@x.com".data)
  ∧ OTP.find_valid (register { ADMIN_EMAILS := none, ADMIN_EMAIL := none }
        { users := [], otps := [] }
        0 0 "a@x.com".data "pw".data "123456" false none).db.otps
      0 10 (normEmail "a@x.com".data) "123456" = true
  ∧ (register { ADMIN_EMAILS := none, ADMIN_EMAIL := none } { users := [], otps := [] }
        0 0 "a@x.com".data "pw".data "123456" false none).outcome
      = .otpIssued false := by
  exact C9_delivery_failure_no_rollback { ADMIN_EMAILS := none, ADMIN_EMAIL := none }
    { users := [], otps := [] } 0 0 "a@x.com".data "pw".data "123456" none 10 false
    (by decide)
    (fun u hu => by
      have hnone : User.find_by_email ([] : List UserDoc) (normEmail "a@x.com".data) = none :=
        by decide
      rw [hnone] at hu
      cases hu)

/-- When at most one record matches `(email, code)`, every matching record
left by `mark_used` is used. -/
lemma mark_used_kills_unique (otps : List OTPDoc) (e : List Char) (c : String)
    (h : (otps.filter (fun o => o.email == e && o.otp_code == c)).length ≤ 1) :
    ∀ x ∈ OTP.mark_used otps e c,
      (x.email == e && x.otp_code == c) = true → x.used = true := by
  induction otps with
  | nil =>
    intro x hx
    simp [OTP.mark_used] at hx
  | cons o rest ih =>
    by_cases hm : (o.email == e && o.otp_code == c) = true
    · have hf : List.filter (fun o => o.email == e && o.otp_code == c) (o :: rest)
          = o :: List.filter (fun o => o.email == e && o.otp_code == c) rest := by
        simp [List.filter_cons, hm]
      have h0 : rest.filter (fun o => o.email == e && o.otp_code == c) = [] := by
        rw [hf] at h
        simp only [List.length_cons] at h
        have hz : (rest.filter (fun o => o.email == e && o.otp_code == c)).length = 0 := by
          omega
        exact List.length_eq_zero.mp hz
      intro x hx hmx
      rw [show OTP.mark_used (o :: rest) e c
            = if o.email == e && o.otp_code == c then { o with used := true } :: rest
              else o :: OTP.mark_used rest e c from rfl, if_pos hm] at hx
      rcases List.mem_cons.mp hx with rfl | hx2
      · rfl
      · exact absurd hmx (List.filter_eq_nil_iff.mp h0 x hx2)
    · intro x hx hmx
      rw [show OTP.mark_used (o :: rest) e c
            = if o.email == e && o.otp_code == c then { o with used := true } :: rest
              else o :: OTP.mark_used rest e c from rfl, if_neg hm] at hx
      rcases List.mem_cons.mp hx with rfl | hx2
      · exact absurd hmx hm
      · have hf : List.filter (fun o => o.email == e && o.otp_code == c) (o :: rest)
            = List.filter (fun o => o.email == e && o.otp_code == c) rest := by
          simp [List.filter_cons, hm]
        have h2 : (rest.filter (fun o => o.email == e && o.otp_code == c)).length ≤ 1 := by
          rw [hf] at h
          exact h
        exact ih h2 x hx2 hmx

/-- C2 (amended): `verify` succeeds iff a OneTimeCode record exists for
`(email, code)` with `used = false` and elapsed time since `created_at` at
most the expiry window (boundary inclusive, the Mongo filter is `gte`);
on success the first matching record is marked used, so when at most one
record exists for the pair a second verify is rejected (a duplicate record
for the same pair can still be consumed separately); a code strictly older
than the window is rejected even if unused. -/
theorem C2_amended :
    (∀ (otps : List OTPDoc) (now W : Int) (e : List Char) (c : String),
       OTP.find_valid otps now W e c = true ↔
         ∃ o ∈ otps, o.email = e ∧ o.otp_code = c ∧ o.used = false ∧ now - W ≤ o.created_at)
  ∧ (∀ (otps : List OTPDoc) (e : List Char) (c : String) (now W : Int),
       (otps.filter (fun o => o.email == e && o.otp_code == c)).length ≤ 1 →
       OTP.find_valid (OTP.mark_used otps e c) now W e c = false)
  ∧ (∀ (otps : List OTPDoc) (now W : Int) (e : List Char) (c : String),
       (∀ o ∈ otps, o.email = e → o.otp_code = c → o.created_at < now - W) →
       OTP.find_valid otps now W e c = false) := by
  have h1 : ∀ (otps : List OTPDoc) (now W : Int) (e : List Char) (c : String),
      OTP.find_valid otps now W e c = true ↔
        ∃ o ∈ otps, o.email = e ∧ o.otp_code = c ∧ o.used = false ∧ now - W ≤ o.created_at := by
    intro otps now W e c
    simp [OTP.find_valid, List.any_eq_true, and_assoc]
  refine ⟨h1, ?_, ?_⟩
  · intro otps e c now W h
    rw [← Bool.not_eq_true, h1]
    rintro ⟨o, ho, he, hc, hu, _⟩
    have := mark_used_kills_unique otps e c h o ho (by simp [he, hc])
    rw [this] at hu
    cases hu
  · intro otps now W e c h
    rw [← Bool.not_eq_true, h1]
    rintro ⟨o, ho, he, hc, _, ht⟩
    have := h o ho he hc
    omega

/-- C2 witness: a fresh code validates, is rejected after being consumed,
and is rejected once strictly older than the window. -/
theorem C2_witness :
    OTP.find_valid
      [{ email := "a@x.com".data, otp_code := "123456", created_at := 0, used := false }]
      5 10 "a@x.com".data "123456" = true
  ∧ OTP.find_valid
      (OTP.mark_used
        [{ email := "a@x.com".data, otp_code := "123456", created_at := 0, used := false }]
        "a@x.com".data "123456")
      5 10 "a@x.com".data "123456" = false
  ∧ OTP.find_valid
      [{ email := "a@x.com".data, otp_code := "123456", created_at := 0, used := false }]
      20 10 "a@x.com".data "123456" = false := by
  have h := C2_amended
  refine ⟨(h.1 _ 5 10 _ _).mpr (by decide), h.2.1 _ _ _ 5 10 (by decide),
    h.2.2 _ 20 10 _ _ (by decide)⟩

/-- C3 (amended): an identity created with a credential starts unverified
and one created via federated login (no credential) is verified at
creation; a credentialed identity becomes verified either through the
verification state machine (`User.verify`, run on a valid code) or by
federated-login linking of its email, which marks it verified while the
credential is retained and no code is consumed. -/
theorem C3_amended :
    (∀ (env : Env) (users : List UserDoc) (newId : Nat) (now : Int) (e pw : List Char)
       (roleArg : Option String) (gid : Option (List Char)), pw ≠ [] →
       (User.create env users newId now e (some pw) roleArg gid).2.is_verified = false
       ∧ (User.create env users newId now e (some pw) roleArg gid).2.password_hash
           = some (hashpw pw))
  ∧ (∀ (env : Env) (users : List UserDoc) (newId : Nat) (now : Int) (e : List Char)
       (roleArg : Option String) (gid : Option (List Char)),
       (User.create env users newId now e none roleArg gid).2.is_verified = true
       ∧ (User.create env users newId now e none roleArg gid).2.password_hash = none)
  ∧ (∀ (env : Env) (db : Db) (newId : Nat) (now : Int) (gid : Option (List Char))
       (e : List Char) (u : UserDoc),
       User.find_by_google_id db.users gid = none →
       User.find_by_email db.users e = some u →
       (find_or_create_user_google env db newId now gid e).2.is_verified = true
       ∧ (find_or_create_user_google env db newId now gid e).2.password_hash
           = u.password_hash)
  ∧ (∀ (env : Env) (db : Db) (newId : Nat) (now : Int) (gid : Option (List Char))
       (e : List Char),
       User.find_by_google_id db.users gid = none →
       User.find_by_email db.users e = none →
       (find_or_create_user_google env db newId now gid e).2.is_verified = true
       ∧ (find_or_create_user_google env db newId now gid e).2.password_hash = none)
  ∧ (∀ (users : List UserDoc) (u : UserDoc),
       (User.verifyUser users u).2.is_verified = true) := by
  refine ⟨?_, ?_, ?_, ?_, ?_⟩
  · intro env users newId now e pw roleArg gid hpw
    constructor <;> simp [User.create, pyTruthy, hpw]
  · intro env users newId now e roleArg gid
    constructor <;> simp [User.create, pyTruthy]
  · intro env db newId now gid e u hg hf
    constructor <;> simp [find_or_create_user_google, hg, hf]
  · intro env db newId now gid e hg hf
    constructor <;> simp [find_or_create_user_google, hg, hf, User.create, pyTruthy]
  · intro users u
    rfl

/-- C3 witness: creation with a password is unverified; Google creation is
verified with no credential; linking Google to the credentialed,
unverified `a@x.com` yields a verified identity that keeps its hash. -/
theorem C3_witness :
    (User.create { ADMIN_EMAILS := none, ADMIN_EMAIL := none } [] 0 0 "a@x.com".data
        (some "pw".data) none none).2.is_verified = false
  ∧ (User.create { ADMIN_EMAILS := none, ADMIN_EMAIL := none } [] 1 0 "g@x.com".data
        none none (some "sub".data)).2.is_verified = true
  ∧ (User.create { ADMIN_EMAILS := none, ADMIN_EMAIL := none } [] 1 0 "g@x.com".data
        none none (some "sub".data)).2.password_hash = none
  ∧ (find_or_create_user_google { ADMIN_EMAILS := none, ADMIN_EMAIL := none }
      { users := [{ id := 3, email := "a@x.com".data,
                    password_hash := some (hashpw "pw".data), role := "user",
                    is_verified := false, google_id := none, created_at := 0 }],
        otps := [] } 4 1 (some "sub".data) "a@x.com".data).2.is_verified = true
  ∧ (find_or_create_user_google { ADMIN_EMAILS := none, ADMIN_EMAIL := none }
      { users := [{ id := 3, email := "a@x.com".data,
                    password_hash := some (hashpw "pw".data), role := "user",
                    is_verified := false, google_id := none, created_at := 0 }],
        otps := [] } 4 1 (some "sub".data) "a@x.com".data).2.password_hash
      = some (hashpw "pw".data) := by
  have h := C3_amended
  refine ⟨(h.1 _ _ _ _ _ _ _ _ (by decide)).1, (h.2.1 _ _ _ _ _ _ _).1,
    (h.2.1 _ _ _ _ _ _ _).2, ?_, ?_⟩
  · exact (h.2.2.1 _ _ 4 1 _ _
      { id := 3, email := "a@x.com".data, password_hash := some (hashpw "pw".data),
        role := "user", is_verified := false, google_id := none, created_at := 0 }
      (by decide) (by decide)).1
  · exact (h.2.2.1 _ _ 4 1 _ _
      { id := 3, email := "a@x.com".data, password_hash := some (hashpw "pw".data),
        role := "user", is_verified := false, google_id := none, created_at := 0 }
      (by decide) (by decide)).2

/-- On an already-normalised, non-empty email, `find_by_email` is the
plain `find_one` on the users collection. -/
lemma find_by_email_norm (users : List UserDoc) (email : List Char)
    (h : normEmail email = email) (hne : email ≠ []) :
    User.find_by_email users email = users.find? (fun u => u.email == email) := by
  simp [User.find_by_email, h, hne]

/-- An update that preserves `email` and `is_verified` preserves the
`(email, is_verified)` view of an email lookup. -/
lemma find?_updateById_email (users : List UserDoc) (id : Nat) (f : UserDoc → UserDoc)
    (hf : ∀ x, (f x).email = x.email ∧ (f x).is_verified = x.is_verified) (e : List Char) :
    ((updateById users id f).find? (fun u => u.email == e)).map
        (fun u => (u.email, u.is_verified))
      = (users.find? (fun u => u.email == e)).map (fun u => (u.email, u.is_verified)) := by
  induction users with
  | nil => rfl
  | cons u rest ih =>
    by_cases hid : (u.id == id) = true
    · simp only [updateById, if_pos hid]
      by_cases hp : (u.email == e) = true
      · have hp' : ((f u).email == e) = true := by rw [(hf u).1]; exact hp
        simp [hp, hp', (hf u).1, (hf u).2]
      · have hp' : ¬ ((f u).email == e) = true := by rw [(hf u).1]; exact hp
        simp [hp, hp']
    · simp only [updateById, if_neg hid]
      by_cases hp : (u.email == e) = true
      · simp [hp]
      · simp [hp, ih]

/-- An update that preserves `email` preserves every email count. -/
lemma countEmail_updateById (users : List UserDoc) (id : Nat) (f : UserDoc → UserDoc)
    (hf : ∀ x, (f x).email = x.email) (e : List Char) :
    countEmail (updateById users id f) e = countEmail users e := by
  induction users with
  | nil => rfl
  | cons u rest ih =>
    by_cases hid : (u.id == id) = true
    · simp only [updateById, if_pos hid, countEmail, List.filter_cons, hf u]
      by_cases hp : (u.email == e) = true <;> simp [hp]
    · simp only [updateById, if_neg hid, countEmail, List.filter_cons]
      simp only [countEmail] at ih
      by_cases hp : (u.email == e) = true <;> simp [hp, ih]

/-- Appending one document adds one to the count of its email only. -/
lemma countEmail_append (users : List UserDoc) (d : UserDoc) (e : List Char) :
    countEmail (users ++ [d]) e
      = countEmail users e + (if d.email == e then 1 else 0) := by
  simp only [countEmail, List.filter_append]
  by_cases h : (d.email == e) = true
  · simp [h]
  · simp [h]

/-- A failed email lookup means no document carries the email. -/
lemma countEmail_zero_of_find?_none (users : List UserDoc) (e : List Char)
    (h : users.find? (fun u => u.email == e) = none) : countEmail users e = 0 := by
  unfold countEmail
  rw [List.filter_eq_nil_iff.mpr]
  · rfl
  · intro a ha
    exact fun hc => by
      have := List.find?_eq_none.mp h a ha
      exact this hc

/-- C6: registration is idempotent for an unverified identity — whether
the identity already exists unverified or is created by the first call,
the second call adds no identity record, keeps exactly one record for the
email, and each call issues a fresh code valid at its issue time; and
registering a verified email is rejected with no change to the store. -/
theorem C6_register_idempotency :
    ∀ (env : Env) (db : Db) (now1 now2 : Int) (id1 id2 : Nat)
      (emailInput pw1 pw2 : List Char) (c1 c2 : String) (m1 m2 : Bool)
      (p0 p1 : Option (List Char)) (W : Int) (r1 r2 : RegisterResult),
      normEmail (normEmail emailInput) = normEmail emailInput →
      normEmail emailInput ≠ [] →
      pw1 ≠ [] →
      0 ≤ W →
      r1 = register env db now1 id1 emailInput pw1 c1 m1 p0 →
      r2 = register env r1.db now2 id2 emailInput pw2 c2 m2 p1 →
      ((∀ u, User.find_by_email db.users (normEmail emailInput) = some u →
          u.is_verified = false →
          r1.db.users.length = db.users.length
          ∧ r2.db.users.length = r1.db.users.length
          ∧ countEmail r2.db.users (normEmail emailInput)
              = countEmail r1.db.users (normEmail emailInput)
          ∧ OTP.find_valid r1.db.otps now1 W (normEmail emailInput) c1 = true
          ∧ OTP.find_valid r2.db.otps now2 W (normEmail emailInput) c2 = true)
       ∧ (User.find_by_email db.users (normEmail emailInput) = none →
          r1.db.users.length = db.users.length + 1
          ∧ countEmail r1.db.users (normEmail emailInput) = 1
          ∧ r2.db.users.length = r1.db.users.length
          ∧ countEmail r2.db.users (normEmail emailInput) = 1
          ∧ OTP.find_valid r1.db.otps now1 W (normEmail emailInput) c1 = true
          ∧ OTP.find_valid r2.db.otps now2 W (normEmail emailInput) c2 = true)
       ∧ (∀ u, User.find_by_email db.users (normEmail emailInput) = some u →
          u.is_verified = true →
          r1 = { db := db, pending_email := p0, outcome := .alreadyVerified })) := by
  intro env db now1 now2 id1 id2 emailInput pw1 pw2 c1 c2 m1 m2 p0 p1 W r1 r2
    hnorm hne hpw1 hW hr1 hr2
  subst hr1
  subst hr2
  refine ⟨?_, ?_, ?_⟩
  · intro u hfind hver
    have hfindraw : db.users.find? (fun x => x.email == normEmail emailInput) = some u := by
      rw [find_by_email_norm db.users (normEmail emailInput) hnorm hne] at hfind
      exact hfind
    have hmap := find?_updateById_email db.users u.id
      (fun x =>
        { x with
          password_hash := some (hashpw pw1),
          role := if is_admin_email env (normEmail emailInput) then "admin" else "user" })
      (fun x => ⟨rfl, rfl⟩) (normEmail emailInput)
    rw [hfindraw] at hmap
    obtain ⟨u2, hu2, hpair⟩ := Option.map_eq_some'.mp hmap
    have hu2v : u2.is_verified = false := by
      have h2 := congrArg Prod.snd hpair
      simp only at h2
      exact h2.trans hver
    have hfind2 : User.find_by_email (updateById db.users u.id
        (fun x =>
          { x with
            password_hash := some (hashpw pw1),
            role := if is_admin_email env (normEmail emailInput) then "admin" else "user" }))
        (normEmail emailInput) = some u2 := by
      rw [find_by_email_norm _ _ hnorm hne]
      exact hu2
    refine ⟨?_, ?_, ?_, ?_, ?_⟩
    · simp [register, hfind, hver, length_updateById]
    · simp [register, hfind, hver, hfind2, hu2v, length_updateById]
    · simp [register, hfind, hver, hfind2, hu2v, countEmail_updateById]
    · simp [register, hfind, hver, find_valid_create, hW]
    · simp [register, hfind, hver, hfind2, hu2v, find_valid_create, hW]
  · intro hfind
    have hfindraw : db.users.find? (fun x => x.email == normEmail emailInput) = none := by
      rw [find_by_email_norm db.users (normEmail emailInput) hnorm hne] at hfind
      exact hfind
    have hcount0 := countEmail_zero_of_find?_none db.users (normEmail emailInput) hfindraw
    have hpw1' : pw1.isEmpty = false := by
      cases pw1
      · exact absurd rfl hpw1
      · rfl
    have hfind2 : User.find_by_email
        (db.users ++
          [{ id := id1, email := normEmail emailInput,
             password_hash := some (hashpw pw1),
             role := if is_admin_email env (normEmail emailInput) then "admin" else "user",
             is_verified := false, google_id := none, created_at := now1 }])
        (normEmail emailInput)
        = some { id := id1, email := normEmail emailInput,
                 password_hash := some (hashpw pw1),
                 role := if is_admin_email env (normEmail emailInput) then "admin"
                         else "user",
                 is_verified := false, google_id := none, created_at := now1 } := by
      rw [find_by_email_norm _ _ hnorm hne]
      rw [List.find?_append, hfindraw]
      simp
    refine ⟨?_, ?_, ?_, ?_, ?_, ?_⟩
    · simp [register, hfind, User.create, pyTruthy, hpw1']
    · simp [register, hfind, User.create, pyTruthy, hpw1', hnorm, countEmail_append,
        hcount0]
    · simp [register, hfind, User.create, pyTruthy, hpw1', hnorm, hfind2,
        length_updateById]
    · simp [register, hfind, User.create, pyTruthy, hpw1', hnorm, hfind2,
        countEmail_updateById, countEmail_append, hcount0]
    · simp [register, hfind, find_valid_create, hW]
    · simp [register, hfind, User.create, pyTruthy, hpw1', hnorm, hfind2,
        find_valid_create, hW]
  · intro u hfind hver
    simp [register, hfind, hver]

/-- C6 witness: two registrations of `a@x.com` on an empty store leave
exactly one identity record and each issues a valid code; registering the
already verified `v@x.com` is rejected and leaves the store unchanged. -/
theorem C6_witness :
    (register { ADMIN_EMAILS := none, ADMIN_EMAIL := none } { users := [], otps := [] }
        0 0 "a@x.com".data "pw".data "111111" true none).db.users.length = 1
  ∧ countEmail (register { ADMIN_EMAILS := none, ADMIN_EMAIL := none }
        { users := [], otps := [] }
        0 0 "a@x.com".data "pw".data "111111" true none).db.users
      (normEmail "a@x.com".data) = 1
  ∧ (register { ADMIN_EMAILS := none, ADMIN_EMAIL := none }
      (register { ADMIN_EMAILS := none, ADMIN_EMAIL := none } { users := [], otps := [] }
        0 0 "a@x.com".data "pw".data "111111" true none).db
      1 1 "a@x.com".data "pw2".data "222222" true none).db.users.length
      = (register { ADMIN_EMAILS := none, ADMIN_EMAIL := none } { users := [], otps := [] }
        0 0 "a@x.com".data "pw".data "111111" true none).db.users.length
  ∧ countEmail (register { ADMIN_EMAILS := none, ADMIN_EMAIL := none }
      (register { ADMIN_EMAILS := none, ADMIN_EMAIL := none } { users := [], otps := [] }
        0 0 "a@x.com".data "pw".data "111111" true none).db
      1 1 "a@x.com".data "pw2".data "222222" true none).db.users
      (normEmail "a@x.com".data) = 1
  ∧ OTP.find_valid (register { ADMIN_EMAILS := none, ADMIN_EMAIL := none }
        { users := [], otps := [] }
        0 0 "a@x.com".data "pw".data "111111" true none).db.otps
      0 10 (normEmail "a@x.com".data) "111111" = true
  ∧ OTP.find_valid (register { ADMIN_EMAILS := none, ADMIN_EMAIL := none }
      (register { ADMIN_EMAILS := none, ADMIN_EMAIL := none } { users := [], otps := [] }
        0 0 "a@x.com".data "pw".data "111111" true none).db
      1 1 "a@x.com".data "pw2".data "222222" true none).db.otps
      1 10 (normEmail "a@x.com".data) "222222" = true
  ∧ register { ADMIN_EMAILS := none, ADMIN_EMAIL := none }
      { users := [{ id := 5, email := "v@x.com".data,
                    password_hash := some (hashpw "pw".data), role := "user",
                    is_verified := true, google_id := none, created_at := 0 }],
        otps := [] } 2 9 "v@x.com".data "pw".data "333333" true none
      = { db := { users := [{ id := 5, email := "v@x.com".data,
                              password_hash := some (hashpw "pw".data), role := "user",
                              is_verified := true, google_id := none, created_at := 0 }],
                  otps := [] },
          pending_email := none, outcome := .alreadyVerified } := by
  have h := C6_register_idempotency { ADMIN_EMAILS := none, ADMIN_EMAIL := none }
    { users := [], otps := [] } 0 1 0 1 "a@x.com".data "pw".data "pw2".data
    "111111" "222222" true true none none 10
    (register { ADMIN_EMAILS := none, ADMIN_EMAIL := none } { users := [], otps := [] }
      0 0 "a@x.com".data "pw".data "111111" true none)
    (register { ADMIN_EMAILS := none, ADMIN_EMAIL := none }
      (register { ADMIN_EMAILS := none, ADMIN_EMAIL := none } { users := [], otps := [] }
        0 0 "a@x.com".data "pw".data "111111" true none).db
      1 1 "a@x.com".data "pw2".data "222222" true none)
    (by decide) (by decide) (by decide) (by decide) rfl rfl
  have hB := h.2.1 (by decide)
  have h2 := C6_register_idempotency { ADMIN_EMAILS := none, ADMIN_EMAIL := none }
    { users := [{ id := 5, email := "v@x.com".data,
                  password_hash := some (hashpw "pw".data), role := "user",
                  is_verified := true, google_id := none, created_at := 0 }],
      otps := [] }
    2 3 9 9 "v@x.com".data "pw".data "pw".data "333333" "444444" true true none none 10
    (register { ADMIN_EMAILS := none, ADMIN_EMAIL := none }
      { users := [{ id := 5, email := "v@x.com".data,
                    password_hash := some (hashpw "pw".data), role := "user",
                    is_verified := true, google_id := none, created_at := 0 }],
        otps := [] } 2 9 "v@x.com".data "pw".data "333333" true none)
    (register { ADMIN_EMAILS := none, ADMIN_EMAIL := none }
      (register { ADMIN_EMAILS := none, ADMIN_EMAIL := none }
        { users := [{ id := 5, email := "v@x.com".data,
                      password_hash := some (hashpw "pw".data), role := "user",
                      is_verified := true, google_id := none, created_at := 0 }],
          otps := [] } 2 9 "v@x.com".data "pw".data "333333" true none).db
      3 9 "v@x.com".data "pw".data "444444" true none)
    (by decide) (by decide) (by decide) (by decide) rfl rfl
  have hC := h2.2.2
    { id := 5, email := "v@x.com".data, password_hash := some (hashpw "pw".data),
      role := "user", is_verified := true, google_id := none, created_at := 0 }
    (by decide) (by decide)
  exact ⟨hB.1, hB.2.1, hB.2.2.1, hB.2.2.2.1, hB.2.2.2.2.1, hB.2.2.2.2.2, hC⟩
